import Mathlib

/-!
Shallow embedding of the Factora browser-extension analysis pipeline.

Sources embedded here:
- `src/unnamed/part_000` (the ApiService module `lib/api.ts`): the data
  interfaces, `detectAIInImage`, `analyzeImages`, `calculateFakeNewsPercentage`.
- `src/src/popup/App.tsx`: the step registry, `updateStep`, and the
  `scanCurrentPage` pipeline (steps 1-8).
- `src/src/background/index.ts`: the `chrome.tabs.onUpdated` listener that
  clears stored analyses for other URLs, and the storage key scheme.

External effects (HTTP calls via `fetch`, `chrome.tabs.query`,
`chrome.storage.local`) are modelled by an explicit environment `Env` giving
each service call's outcome for the run, and by an association list for the
key-value storage.  JavaScript numbers that the code treats as integers
(`aiLikelihoodPercent`, scores) are modelled as `Int`; `Math.round` applied to
the non-negative rational `(falseClaims / n) * 100` is modelled as exact
round-half-up arithmetic on naturals.  `Date` timestamp fields carry no logic
and are omitted.
-/

namespace Factora

/-- Status of one pipeline step.  The four status strings are the ones
`App.tsx` passes to `updateStep`: pending, loading, completed, error. -/
inductive StepStatus where
  | pending
  | loading
  | completed
  | error
  deriving DecidableEq, Repr

/-- Modelled from the spec: the `AnalysisStep` interface is declared in
`src/components/AnalysisProgress` which is not among the provided sources;
its fields follow spec section 3 (id, title, description, status, optional
error message) and every use in `src/popup/App.tsx`. -/
structure AnalysisStep where
  id : String
  title : String
  description : String
  status : StepStatus
  error : Option String
  deriving DecidableEq, Repr

/-- `ScrapedData` interface from the api module. -/
structure ScrapedData where
  url : String
  text : String
  images : List String
  deriving DecidableEq, Repr

/-- `DetectionResult` interface from the api module. -/
structure DetectionResult where
  textPreview : String
  aiLikelihoodPercent : Int
  deriving DecidableEq, Repr

/-- `SupportingSource` interface from the api module. -/
structure SupportingSource where
  title : String
  link : String
  deriving DecidableEq, Repr

/-- `FactCheckClaim` interface from the api module. -/
structure FactCheckClaim where
  claim : String
  isLikelyTrue : Bool
  supportingSources : List SupportingSource
  deriving DecidableEq, Repr

/-- `FactCheckResult` interface from the api module. -/
structure FactCheckResult where
  claims : List FactCheckClaim
  deriving DecidableEq, Repr

/-- `SentimentResult` interface from the api module. -/
structure SentimentResult where
  summary : String
  deriving DecidableEq, Repr

/-- Body of a successful `/api/image-detect-ai` response, as read by
`detectAIInImage` (fields `aiLikelihoodPercent` and `rawModelReply`). -/
structure ImagePayload where
  aiLikelihoodPercent : Int
  rawModelReply : String
  deriving DecidableEq, Repr

/-- `ImageDetectionResult` interface from the api module. -/
structure ImageDetectionResult where
  url : String
  aiLikelihoodPercent : Int
  rawModelReply : String
  deriving DecidableEq, Repr

/-- Modelled from the spec: `SummarizationResult` is imported by `App.tsx`
from the api module but its declaration is not among the provided sources;
fields follow spec section 3. -/
structure SummarizationResult where
  summary : String
  model : String
  input_length : Int
  summary_length : Int
  deriving DecidableEq, Repr

/-- `ScanResult.type` values from `App.tsx`. -/
inductive ScanType where
  | aiGenerated
  | fakeNews
  | suspicious
  | safe
  deriving DecidableEq, Repr

/-- `ScanResult` interface from `App.tsx` (timestamp omitted). -/
structure ScanResult where
  id : String
  type : ScanType
  confidence : Int
  description : String
  deriving DecidableEq, Repr

/-- `overallRisk` values from `App.tsx`. -/
inductive Risk where
  | low
  | medium
  | high
  deriving DecidableEq, Repr

/-- `PageAnalysis` interface from `App.tsx`.  The `imageDetectionResults`
field models `apiData.imageDetectionResults`; the remaining raw `apiData`
snapshot fields (timestamps, raw service payload copies) carry no pipeline
logic and are omitted. -/
structure PageAnalysis where
  url : String
  title : String
  aiScore : Int
  fakeNewsScore : Int
  overallRisk : Risk
  results : List ScanResult
  factCheckClaims : List FactCheckClaim
  imageDetectionResults : List ImageDetectionResult
  deriving DecidableEq, Repr

/-! ### ApiService (src/unnamed/part_000) -/

/-- `detectAIInImage` from the api module: one `/api/image-detect-ai` call for
one image URL.  The oracle gives the fetch outcome (parsed body on success,
the underlying error message on failure); on failure the method rethrows with
the message prefixed by "Failed to detect AI in image: ". -/
def detectAIInImage (oracle : String → Except String ImagePayload)
    (imageUrl : String) : Except String ImageDetectionResult :=
  match oracle imageUrl with
  | .ok data =>
      .ok { url := imageUrl
            aiLikelihoodPercent := data.aiLikelihoodPercent
            rawModelReply := data.rawModelReply }
  | .error e => .error ("Failed to detect AI in image: " ++ e)

/-- `analyzeImages` from the api module: sequential loop over the image URLs,
one `detectAIInImage` call each; an individual failure is caught and pushed
as a synthetic failed result instead of aborting the loop.  The guard
`!imageUrls || imageUrls.length === 0` returns the empty list. -/
def analyzeImages (oracle : String → Except String ImagePayload) :
    List String → List ImageDetectionResult
  | [] => []
  | imageUrl :: rest =>
      (match detectAIInImage oracle imageUrl with
       | .ok result => result
       | .error e =>
           { url := imageUrl
             aiLikelihoodPercent := 0
             rawModelReply := "Analysis failed: " ++ e }) ::
      analyzeImages oracle rest

/-- Count of claims with `isLikelyTrue` false, as in line 263 of the api
module (`claims.filter(claim => !claim.isLikelyTrue).length`). -/
def falseClaimCount (claims : List FactCheckClaim) : Nat :=
  (claims.filter fun c => !c.isLikelyTrue).length

/-- `calculateFakeNewsPercentage` from the api module:
`Math.round((falseClaims / claims.length) * 100)` with 0 for an empty (or
absent) list.  `Math.round` on the non-negative rational `100 * f / n` is
round half up, i.e. `(200 * f + n) / (2 * n)` in natural division. -/
def calculateFakeNewsPercentage (claims : List FactCheckClaim) : Nat :=
  if claims.length = 0 then 0
  else (200 * falseClaimCount claims + claims.length) / (2 * claims.length)

/-! ### Key-value storage (chrome.storage.local) -/

/-- `chrome.storage.local` modelled as an association list with unique keys;
`chrome.storage.local.set` is an upsert for one key. -/
def storageSet (key : String) (v : α) : List (String × α) → List (String × α)
  | [] => [(key, v)]
  | kv :: rest => if kv.1 = key then (key, v) :: rest else kv :: storageSet key v rest

/-- `chrome.storage.local.get` for one key. -/
def storageGet (key : String) : List (String × α) → Option α
  | [] => none
  | kv :: rest => if kv.1 = key then some kv.2 else storageGet key rest

/-- JavaScript `key.startsWith(p)`, defined over the character list so that
it evaluates by `decide` (Lean's own `String.startsWith` is well-founded
recursion the kernel cannot reduce). -/
def strStartsWith (s p : String) : Bool :=
  p.data.isPrefixOf s.data

/-- The `chrome.tabs.onUpdated` listener body in
`src/src/background/index.ts` lines 110-121: collect every stored key that
starts with "analysis_" and differs from the current tab's key, and remove
those keys.  Every other entry is kept unchanged. -/
def invalidateOthers (currentUrl : String) (st : List (String × α)) :
    List (String × α) :=
  st.filter fun kv =>
    !(strStartsWith kv.1 "analysis_" && kv.1 != "analysis_" ++ currentUrl)

/-! ### The scanCurrentPage pipeline (src/src/popup/App.tsx) -/

/-- One service call made during a run, for tracking which HTTP calls the
pipeline attempts. -/
inductive ServiceCall where
  | scrapeCall
  | detectCall
  | factCheckCall
  | sentimentCall
  | imageCall (url : String)
  | summarizeCall
  deriving DecidableEq, Repr

/-- External world for one pipeline run: the active tab returned by
`chrome.tabs.query` and the outcome each service call would have if made
during this run.  Error values are the thrown `Error`'s message.
`imageDetect` is the per-image `/api/image-detect-ai` fetch outcome;
`summarize` is the outcome of `apiService.summarizeContent`, whose
declaration is not among the provided sources and is modelled by its
outcome only. -/
structure Env where
  tabUrl : Option String
  tabTitle : Option String
  scrape : Except String ScrapedData
  detect : Except String DetectionResult
  factCheck : Except String FactCheckResult
  sentiment : Except String SentimentResult
  imageDetect : String → Except String ImagePayload
  summarize : Except String SummarizationResult

/-- `updateStep` from `App.tsx` lines 80-88: replace the status and error of
the step whose id matches, leaving every other step unchanged. -/
def updateStep (steps : List AnalysisStep) (stepId : String)
    (status : StepStatus) (err : Option String) : List AnalysisStep :=
  steps.map fun step =>
    if step.id = stepId then { step with status := status, error := err } else step

/-- `initializeAnalysisSteps` from `App.tsx` lines 90-142 (renamed here):
the canonical ordered list of the eight steps, all pending. -/
def initAnalysisSteps : List AnalysisStep :=
  [ { id := "get-url", title := "Getting Current Page URL"
      description := "Retrieving the URL of the active tab"
      status := .pending, error := none },
    { id := "scrape-content", title := "Scraping Page Content"
      description := "Extracting text and images from the webpage"
      status := .pending, error := none },
    { id := "detect-ai", title := "Analyzing AI Content"
      description := "Detecting AI-generated text patterns"
      status := .pending, error := none },
    { id := "fact-check", title := "Fact-Checking Claims"
      description := "Verifying factual accuracy of content"
      status := .pending, error := none },
    { id := "sentiment-analysis", title := "Sentiment Analysis"
      description := "Analyzing content sentiment and information"
      status := .pending, error := none },
    { id := "image-analysis", title := "Image Analysis"
      description := "Detecting generated images"
      status := .pending, error := none },
    { id := "summarization", title := "Content Summarization"
      description := "Generating advanced bullet point summary"
      status := .pending, error := none },
    { id := "generate-report", title := "Generating Analysis Report"
      description := "Creating comprehensive risk assessment"
      status := .pending, error := none } ]

/-- The eight declared step ids, in pipeline order. -/
def declaredStepIds : List String :=
  [ "get-url", "scrape-content", "detect-ai", "fact-check",
    "sentiment-analysis", "image-analysis", "summarization",
    "generate-report" ]

/-- `getAIRiskLevel` from `App.tsx` lines 474-480. -/
def getAIRiskLevel (percentage : Int) : String :=
  if percentage ≥ 80 then "Very High"
  else if percentage ≥ 60 then "High"
  else if percentage ≥ 40 then "Moderate"
  else if percentage ≥ 20 then "Low"
  else "Very Low"

/-- The overall risk computation from `App.tsx` lines 370-375, as the pure
function of the two scores it is. -/
def overallRiskOf (aiScore fakeNewsScore : Int) : Risk :=
  if aiScore > 70 ∨ fakeNewsScore > 50 then .high
  else if aiScore > 40 ∨ fakeNewsScore > 30 then .medium
  else .low

/-- Step 2 of `scanCurrentPage` (`App.tsx` lines 212-222): scrape the page;
on failure record the error on the step and continue with no scrape result. -/
def stepScrapeContent (env : Env) (steps : List AnalysisStep) :
    List AnalysisStep × Option ScrapedData × List ServiceCall :=
  let steps := updateStep steps "scrape-content" .loading none
  match env.scrape with
  | .ok d => (updateStep steps "scrape-content" .completed none, some d, [.scrapeCall])
  | .error e => (updateStep steps "scrape-content" .error (some e), none, [.scrapeCall])

/-- Step 3 of `scanCurrentPage` (`App.tsx` lines 224-263): detect AI content
only if scraping succeeded; push a `ScanResult` in every branch. -/
def stepDetectAI (env : Env) (scrapeRes : Option ScrapedData)
    (steps : List AnalysisStep) :
    List AnalysisStep × Option DetectionResult × List ScanResult × List ServiceCall :=
  match scrapeRes with
  | some _ =>
      let steps := updateStep steps "detect-ai" .loading none
      match env.detect with
      | .ok d =>
          (updateStep steps "detect-ai" .completed none, some d,
           [ { id := "1", type := .aiGenerated
               confidence := d.aiLikelihoodPercent
               description := "Text analysis suggests " ++
                 (getAIRiskLevel d.aiLikelihoodPercent).toLower ++
                 " likelihood of AI generation" } ],
           [.detectCall])
      | .error e =>
          (updateStep steps "detect-ai" .error (some e), none,
           [ { id := "1", type := .aiGenerated, confidence := 0
               description := "AI detection failed - API unavailable or returned an error" } ],
           [.detectCall])
  | none =>
      (updateStep steps "detect-ai" .error
         (some "Cannot analyze AI content - scraping failed"), none,
       [ { id := "1", type := .aiGenerated, confidence := 0
           description := "AI detection failed - no content to analyze (scraping failed)" } ],
       [])

/-- Step 4 of `scanCurrentPage` (`App.tsx` lines 265-307): fact-check only if
scraping succeeded; push a `ScanResult` in every branch. -/
def stepFactCheck (env : Env) (scrapeRes : Option ScrapedData)
    (steps : List AnalysisStep) :
    List AnalysisStep × Option FactCheckResult × List ScanResult × List ServiceCall :=
  match scrapeRes with
  | some _ =>
      let steps := updateStep steps "fact-check" .loading none
      match env.factCheck with
      | .ok f =>
          (updateStep steps "fact-check" .completed none, some f,
           [ { id := "2", type := .fakeNews
               confidence := (calculateFakeNewsPercentage f.claims : Int)
               description := toString (falseClaimCount f.claims) ++ " out of " ++
                 toString f.claims.length ++
                 " claims appear to be false or misleading" } ],
           [.factCheckCall])
      | .error e =>
          (updateStep steps "fact-check" .error (some e), none,
           [ { id := "2", type := .fakeNews, confidence := 0
               description := "Fact-checking failed - API unavailable or returned an error" } ],
           [.factCheckCall])
  | none =>
      (updateStep steps "fact-check" .error
         (some "Cannot fact-check content - scraping failed"), none,
       [ { id := "2", type := .fakeNews, confidence := 0
           description := "Fact-checking failed - no content to analyze (scraping failed)" } ],
       [])

/-- Step 5 of `scanCurrentPage` (`App.tsx` lines 309-323): sentiment analysis
only if scraping succeeded; no `ScanResult` is pushed. -/
def stepSentiment (env : Env) (scrapeRes : Option ScrapedData)
    (steps : List AnalysisStep) :
    List AnalysisStep × Option SentimentResult × List ServiceCall :=
  match scrapeRes with
  | some _ =>
      let steps := updateStep steps "sentiment-analysis" .loading none
      match env.sentiment with
      | .ok s => (updateStep steps "sentiment-analysis" .completed none, some s, [.sentimentCall])
      | .error e => (updateStep steps "sentiment-analysis" .error (some e), none, [.sentimentCall])
  | none =>
      (updateStep steps "sentiment-analysis" .error
         (some "Cannot analyze sentiment - scraping failed"), none, [])

/-- Step 6 of `scanCurrentPage` (`App.tsx` lines 325-342): analyze images
only if scraping succeeded and at least one image exists; an empty image list
completes the step with no results.  `analyzeImages` catches each per-image
failure internally, so the catch branch around it never fires. -/
def stepImageAnalysis (env : Env) (scrapeRes : Option ScrapedData)
    (steps : List AnalysisStep) :
    List AnalysisStep × List ImageDetectionResult × List ServiceCall :=
  match scrapeRes with
  | some d =>
      if d.images.length > 0 then
        let steps := updateStep steps "image-analysis" .loading none
        (updateStep steps "image-analysis" .completed none,
         analyzeImages env.imageDetect d.images,
         d.images.map .imageCall)
      else
        (updateStep steps "image-analysis" .completed none, [], [])
  | none =>
      (updateStep steps "image-analysis" .error
         (some "Cannot analyze images - scraping failed"), [], [])

/-- Step 7 of `scanCurrentPage` (`App.tsx` lines 344-359): summarize only if
scraping succeeded. -/
def stepSummarization (env : Env) (scrapeRes : Option ScrapedData)
    (steps : List AnalysisStep) :
    List AnalysisStep × Option SummarizationResult × List ServiceCall :=
  match scrapeRes with
  | some _ =>
      let steps := updateStep steps "summarization" .loading none
      match env.summarize with
      | .ok s => (updateStep steps "summarization" .completed none, some s, [.summarizeCall])
      | .error e => (updateStep steps "summarization" .error (some e), none, [.summarizeCall])
  | none =>
      (updateStep steps "summarization" .error
         (some "Cannot summarize content - scraping failed"), none, [])

/-- Step 8 of `scanCurrentPage` (`App.tsx` lines 361-408): always runs,
computes the scores (0 for failed calls), the overall risk, and the final
`PageAnalysis`. -/
def stepGenerateReport (env : Env) (tabUrl : String)
    (scrapeRes : Option ScrapedData) (detectRes : Option DetectionResult)
    (factRes : Option FactCheckResult)
    (imageResults : List ImageDetectionResult) (results : List ScanResult)
    (steps : List AnalysisStep) : List AnalysisStep × PageAnalysis :=
  let steps := updateStep steps "generate-report" .loading none
  let aiScore : Int :=
    match detectRes with
    | some d => d.aiLikelihoodPercent
    | none => 0
  let fakeNewsScore : Int :=
    match factRes with
    | some f => (calculateFakeNewsPercentage f.claims : Int)
    | none => 0
  let analysis : PageAnalysis :=
    { url := match scrapeRes with
             | some d => d.url
             | none => tabUrl
      title := match env.tabTitle with
               | some t => if t = "" then "Unknown" else t
               | none => "Unknown"
      aiScore := aiScore
      fakeNewsScore := fakeNewsScore
      overallRisk := overallRiskOf aiScore fakeNewsScore
      results := results
      factCheckClaims := match factRes with
                         | some f => f.claims
                         | none => []
      imageDetectionResults := imageResults }
  (updateStep steps "generate-report" .completed none, analysis)

/-- Result of one `scanCurrentPage` run: the final step list, the produced
analysis (none when the run aborted in step 1), the trace of attempted
service calls in order, and the storage contents after
`saveAnalysisToStorage`. -/
structure RunOutput where
  steps : List AnalysisStep
  analysis : Option PageAnalysis
  calls : List ServiceCall
  storage : List (String × PageAnalysis)

/-- `scanCurrentPage` from `App.tsx` lines 179-412.  Step 1 gets the active
tab URL; on failure the run returns immediately with the remaining steps
untouched (lines 205-210).  Otherwise steps 2-8 run in sequence and the final
analysis is saved under the key `"analysis_" ++ url` (as
`saveAnalysisToStorage`, lines 163-177, does for the active tab's URL). -/
def scanCurrentPage (env : Env) (storage0 : List (String × PageAnalysis)) :
    RunOutput :=
  let steps := initAnalysisSteps
  let steps := updateStep steps "get-url" .loading none
  match env.tabUrl with
  | none =>
      { steps := updateStep steps "get-url" .error (some "No active tab URL found")
        analysis := none
        calls := []
        storage := storage0 }
  | some url =>
      let steps := updateStep steps "get-url" .completed none
      let r2 := stepScrapeContent env steps
      let steps := r2.1
      let scrapeRes := r2.2.1
      let r3 := stepDetectAI env scrapeRes steps
      let steps := r3.1
      let detectRes := r3.2.1
      let r4 := stepFactCheck env scrapeRes steps
      let steps := r4.1
      let factRes := r4.2.1
      let r5 := stepSentiment env scrapeRes steps
      let steps := r5.1
      let r6 := stepImageAnalysis env scrapeRes steps
      let steps := r6.1
      let imageResults := r6.2.1
      let r7 := stepSummarization env scrapeRes steps
      let steps := r7.1
      let r8 := stepGenerateReport env url scrapeRes detectRes factRes
        imageResults (r3.2.2.1 ++ r4.2.2.1) steps
      { steps := r8.1
        analysis := some r8.2
        calls := r2.2.2 ++ r3.2.2.2 ++ r4.2.2.2 ++ r5.2.2 ++ r6.2.2 ++ r7.2.2
        storage := storageSet ("analysis_" ++ url) r8.2 storage0 }

/-- Lookup of one step by id in a step list, for stating step properties. -/
def stepById (steps : List AnalysisStep) (stepId : String) : Option AnalysisStep :=
  steps.find? fun s => s.id = stepId

/-- Final status of one step by id. -/
def stepStatusById (steps : List AnalysisStep) (stepId : String) : Option StepStatus :=
  (stepById steps stepId).map (·.status)

/-- Final error message of one step by id. -/
def stepErrorById (steps : List AnalysisStep) (stepId : String) : Option String :=
  (stepById steps stepId).bind (·.error)

/-! ### Concrete runs used in witnesses and counterexamples -/

/-- A run in which `chrome.tabs.query` yields no tab URL, so step 1 fails. -/
def envNoTab : Env :=
  { tabUrl := none, tabTitle := none
    scrape := .error "x", detect := .error "x", factCheck := .error "x"
    sentiment := .error "x", imageDetect := fun _ => .error "x"
    summarize := .error "x" }

/-- The scraped content of the end-to-end scenario: one image on the page. -/
def scrapedRun : ScrapedData :=
  { url := "https://test.example", text := "page text", images := ["img1"] }

/-- The end-to-end scenario run: scrape succeeds with one image, detection
reports 85, fact-check finds 3 claims of which 2 are false, sentiment,
summarization and the one image call succeed. -/
def envRun : Env :=
  { tabUrl := some "https://test.example"
    tabTitle := some "Test Page"
    scrape := .ok scrapedRun
    detect := .ok { textPreview := "p", aiLikelihoodPercent := 85 }
    factCheck := .ok { claims :=
      [ { claim := "a", isLikelyTrue := false, supportingSources := [] },
        { claim := "b", isLikelyTrue := false, supportingSources := [] },
        { claim := "c", isLikelyTrue := true, supportingSources := [] } ] }
    sentiment := .ok { summary := "s" }
    imageDetect := fun u =>
      if u = "img1" then .ok { aiLikelihoodPercent := 20, rawModelReply := "clean" }
      else .error "boom"
    summarize := .ok { summary := "s", model := "m", input_length := 9, summary_length := 1 } }

/-- A run in which the tab URL is found but scraping fails. -/
def envScrapeFail : Env :=
  { tabUrl := some "https://fail.example", tabTitle := some "t"
    scrape := .error "Failed to scrape page: HTTP error! status: 500"
    detect := .error "x", factCheck := .error "x", sentiment := .error "x"
    imageDetect := fun _ => .error "x", summarize := .error "x" }

/-- Default value used only to name the analysis of `envRun`. -/
def dummyAnalysis : PageAnalysis :=
  { url := "", title := "", aiScore := 0, fakeNewsScore := 0
    overallRisk := .low, results := [], factCheckClaims := []
    imageDetectionResults := [] }

/-- The analysis produced by the end-to-end scenario run. -/
def runA : PageAnalysis :=
  ((scanCurrentPage envRun []).analysis).getD dummyAnalysis

/-- Four fact-check claims of which two are false. -/
def fourClaims : List FactCheckClaim :=
  [ { claim := "c1", isLikelyTrue := false, supportingSources := [] },
    { claim := "c2", isLikelyTrue := false, supportingSources := [] },
    { claim := "c3", isLikelyTrue := true, supportingSources := [] },
    { claim := "c4", isLikelyTrue := true, supportingSources := [] } ]

/-- Image oracle for which url "a" succeeds and every other url fails. -/
def oracleW : String → Except String ImagePayload := fun u =>
  if u = "a" then .ok { aiLikelihoodPercent := 20, rawModelReply := "clean" }
  else .error "boom"

/-! ### Helper lemmas -/

/-- Setting a key makes it readable back. -/
theorem storageGet_storageSet_self (k : String) (v : α) (st : List (String × α)) :
    storageGet k (storageSet k v st) = some v := by
  induction st with
  | nil => simp [storageSet, storageGet]
  | cons kv rest ih =>
      by_cases h : kv.1 = k
      · simp [storageSet, storageGet, h]
      · simp [storageSet, storageGet, h, ih]

/-- The fake-news percentage never exceeds 100. -/
theorem calculateFakeNewsPercentage_le_100 (claims : List FactCheckClaim) :
    calculateFakeNewsPercentage claims ≤ 100 := by
  unfold calculateFakeNewsPercentage
  split
  · omega
  · have hf : falseClaimCount claims ≤ claims.length := List.length_filter_le _ _
    rename_i hne
    have hpos : 0 < 2 * claims.length := by omega
    have := (Nat.div_lt_iff_lt_mul hpos).mpr
      (show 200 * falseClaimCount claims + claims.length < 101 * (2 * claims.length) by omega)
    omega

/-- A run whose tab query yields no URL aborts in step 1: no analysis, the
storage untouched, and every step that is in error state carries a message. -/
theorem scan_noTab (env : Env) (st0 : List (String × PageAnalysis))
    (h : env.tabUrl = none) :
    (scanCurrentPage env st0).analysis = none ∧
    (scanCurrentPage env st0).storage = st0 ∧
    (∀ s ∈ (scanCurrentPage env st0).steps, s.status = .error → s.error ≠ none) := by
  obtain ⟨tu, tt, sc, de, fc, se, im, su⟩ := env
  simp only at h
  subst h
  simp [scanCurrentPage, updateStep, initAnalysisSteps]

set_option maxHeartbeats 1000000 in
/-- Master description of a run whose tab query succeeds: the analysis is
produced and saved, the step ids are unchanged, every step settles to
completed or error with a message in the error case, the scores are the
guarded pass-throughs of the service results, the risk is recomputed from
the scores, and on scrape success the image step completes with the
`analyzeImages` results. -/
theorem scanRun_master (env : Env) (st0 : List (String × PageAnalysis))
    (url : String) (h : env.tabUrl = some url) :
    ∃ a,
      (scanCurrentPage env st0).analysis = some a ∧
      (scanCurrentPage env st0).storage = storageSet ("analysis_" ++ url) a st0 ∧
      (scanCurrentPage env st0).steps.map AnalysisStep.id = declaredStepIds ∧
      (∀ s ∈ (scanCurrentPage env st0).steps,
        (s.status = .completed ∨ s.status = .error) ∧
        (s.status = .error → s.error ≠ none)) ∧
      a.aiScore = (match env.scrape, env.detect with
                   | .ok _, .ok dr => dr.aiLikelihoodPercent
                   | _, _ => 0) ∧
      a.fakeNewsScore = (match env.scrape, env.factCheck with
                         | .ok _, .ok fr => (calculateFakeNewsPercentage fr.claims : Int)
                         | _, _ => 0) ∧
      a.overallRisk = overallRiskOf a.aiScore a.fakeNewsScore ∧
      (∀ d, env.scrape = .ok d →
        stepStatusById (scanCurrentPage env st0).steps "image-analysis" = some .completed ∧
        a.imageDetectionResults = analyzeImages env.imageDetect d.images) := by
  obtain ⟨tu, tt, sc, de, fc, se, im, su⟩ := env
  simp only at h
  subst h
  cases sc with
  | error e =>
      simp [scanCurrentPage, stepScrapeContent, stepDetectAI, stepFactCheck,
        stepSentiment, stepImageAnalysis, stepSummarization, stepGenerateReport,
        updateStep, initAnalysisSteps, declaredStepIds, stepStatusById, stepById]
  | ok d =>
      obtain ⟨du, dtext, dimgs⟩ := d
      cases de <;> cases fc <;> cases se <;> cases su <;> cases dimgs <;>
        simp [scanCurrentPage, stepScrapeContent, stepDetectAI, stepFactCheck,
          stepSentiment, stepImageAnalysis, stepSummarization, stepGenerateReport,
          updateStep, initAnalysisSteps, declaredStepIds, stepStatusById, stepById,
          analyzeImages]

/-! ### Claims -/

/-- C1 counterexample: in the run whose get-url step fails, not every
declared step settles to completed or error — the pipeline returns early and
leaves the later steps pending. -/
theorem C1_counterexample :
    ¬ (∀ s ∈ (scanCurrentPage envNoTab []).steps,
        s.status = .completed ∨ s.status = .error) := by
  decide

/-- C1 (amended): after every run of `scanCurrentPage` in which the get-url
step succeeds, every declared step id appears exactly once with final status
completed or error; the run in which get-url fails aborts early instead,
leaving the remaining steps pending. -/
theorem C1_steps_settle (env : Env) (st0 : List (String × PageAnalysis))
    (url : String) (h : env.tabUrl = some url) :
    (scanCurrentPage env st0).steps.map AnalysisStep.id = declaredStepIds ∧
    ∀ s ∈ (scanCurrentPage env st0).steps,
      s.status = .completed ∨ s.status = .error := by
  obtain ⟨a, -, -, hids, hsteps, -⟩ := scanRun_master env st0 url h
  exact ⟨hids, fun s hs => (hsteps s hs).1⟩

/-- C1 witness: the amended statement evaluated on the concrete scenario run. -/
theorem C1_steps_settle_witness :
    (scanCurrentPage envRun []).steps.map AnalysisStep.id = declaredStepIds ∧
    ∀ s ∈ (scanCurrentPage envRun []).steps,
      s.status = .completed ∨ s.status = .error :=
  C1_steps_settle envRun [] "https://test.example" rfl

/-- C2: `overallRisk` is the pure function of the two scores given by the
strict thresholds 70/50 (high) and 40/30 (medium), and the claimed boundary
values hold. -/
theorem C2_overallRisk :
    (∀ (env : Env) (st0 : List (String × PageAnalysis)) (a : PageAnalysis),
      (scanCurrentPage env st0).analysis = some a →
      a.overallRisk = overallRiskOf a.aiScore a.fakeNewsScore) ∧
    (∀ ai fn : Int,
      (overallRiskOf ai fn = .high ↔ 70 < ai ∨ 50 < fn) ∧
      (overallRiskOf ai fn = .medium ↔ (ai ≤ 70 ∧ fn ≤ 50) ∧ (40 < ai ∨ 30 < fn)) ∧
      (overallRiskOf ai fn = .low ↔ ai ≤ 40 ∧ fn ≤ 30)) ∧
    overallRiskOf 70 0 = .medium ∧ overallRiskOf 71 0 = .high ∧
    overallRiskOf 0 50 = .medium ∧ overallRiskOf 0 51 = .high := by
  refine ⟨?_, ?_, by decide, by decide, by decide, by decide⟩
  · intro env st0 a ha
    cases henv : env.tabUrl with
    | none => rw [(scan_noTab env st0 henv).1] at ha; cases ha
    | some url =>
        obtain ⟨b, hb, -, -, -, -, -, hrisk, -⟩ := scanRun_master env st0 url henv
        rw [ha] at hb
        injection hb with hab
        subst hab
        exact hrisk
  · intro ai fn
    unfold overallRiskOf
    refine ⟨?_, ?_, ?_⟩ <;> split_ifs <;> simp_all <;> omega

/-- C2 witness: the pure-function relation evaluated on the scenario run's
analysis. -/
theorem C2_overallRisk_witness :
    runA.overallRisk = overallRiskOf runA.aiScore runA.fakeNewsScore :=
  C2_overallRisk.1 envRun [] runA rfl

/-- C3: for a non-empty claim list the returned percentage `k` is exactly
the half-up rounding of `100 * falseClaims / total` — characterized without
division by `k - 1/2 ≤ 100*f/n < k + 1/2`, i.e. `2*n*k ≤ 200*f + n` and
`200*f < 2*n*k + n`; the empty list yields 0, and four claims with two false
yield 50. -/
theorem C3_fakeNewsPercentage :
    (∀ claims : List FactCheckClaim, claims ≠ [] →
      2 * claims.length * calculateFakeNewsPercentage claims ≤
        200 * falseClaimCount claims + claims.length ∧
      200 * falseClaimCount claims <
        2 * claims.length * calculateFakeNewsPercentage claims + claims.length) ∧
    calculateFakeNewsPercentage [] = 0 ∧
    calculateFakeNewsPercentage fourClaims = 50 := by
  refine ⟨?_, by decide, by decide⟩
  intro claims hne
  have hn : 0 < claims.length := List.length_pos.mpr hne
  have hcalc : calculateFakeNewsPercentage claims =
      (200 * falseClaimCount claims + claims.length) / (2 * claims.length) := by
    unfold calculateFakeNewsPercentage
    rw [if_neg (by omega)]
  have hpos : 0 < 2 * claims.length := by omega
  have h1 := Nat.div_add_mod (200 * falseClaimCount claims + claims.length)
    (2 * claims.length)
  have h2 := Nat.mod_lt (200 * falseClaimCount claims + claims.length) hpos
  constructor
  · rw [hcalc]
    exact Nat.le.intro h1
  · rw [hcalc]
    have h3 : 200 * falseClaimCount claims + claims.length <
        2 * claims.length *
          ((200 * falseClaimCount claims + claims.length) / (2 * claims.length)) +
          2 * claims.length := by
      calc 200 * falseClaimCount claims + claims.length
          = 2 * claims.length *
              ((200 * falseClaimCount claims + claims.length) / (2 * claims.length)) +
              (200 * falseClaimCount claims + claims.length) % (2 * claims.length) :=
            h1.symm
        _ < _ := Nat.add_lt_add_left h2 _
    have h4 : 2 * claims.length *
        ((200 * falseClaimCount claims + claims.length) / (2 * claims.length)) +
        2 * claims.length =
        (2 * claims.length *
          ((200 * falseClaimCount claims + claims.length) / (2 * claims.length)) +
          claims.length) + claims.length := by ring
    rw [h4] at h3
    exact Nat.lt_of_add_lt_add_right h3

/-- C3 witness: the rounding characterization evaluated on the four-claim
list. -/
theorem C3_fakeNewsPercentage_witness :
    fourClaims ≠ [] ∧
    (2 * fourClaims.length * calculateFakeNewsPercentage fourClaims ≤
      200 * falseClaimCount fourClaims + fourClaims.length ∧
     200 * falseClaimCount fourClaims <
      2 * fourClaims.length * calculateFakeNewsPercentage fourClaims + fourClaims.length) :=
  ⟨by decide, C3_fakeNewsPercentage.1 fourClaims (by decide)⟩

/-- C4: when get-url succeeds and scraping fails, all five dependent steps
are recorded as errors naming the scraping failure, no further service call
is attempted, the run still completes generate-report, and the analysis has
zero scores and low risk. -/
theorem C4_scrapeFailurePropagates (env : Env) (st0 : List (String × PageAnalysis))
    (url e : String) (h : env.tabUrl = some url) (hs : env.scrape = .error e) :
    stepStatusById (scanCurrentPage env st0).steps "detect-ai" = some .error ∧
    stepErrorById (scanCurrentPage env st0).steps "detect-ai" =
      some "Cannot analyze AI content - scraping failed" ∧
    stepStatusById (scanCurrentPage env st0).steps "fact-check" = some .error ∧
    stepErrorById (scanCurrentPage env st0).steps "fact-check" =
      some "Cannot fact-check content - scraping failed" ∧
    stepStatusById (scanCurrentPage env st0).steps "sentiment-analysis" = some .error ∧
    stepErrorById (scanCurrentPage env st0).steps "sentiment-analysis" =
      some "Cannot analyze sentiment - scraping failed" ∧
    stepStatusById (scanCurrentPage env st0).steps "image-analysis" = some .error ∧
    stepErrorById (scanCurrentPage env st0).steps "image-analysis" =
      some "Cannot analyze images - scraping failed" ∧
    stepStatusById (scanCurrentPage env st0).steps "summarization" = some .error ∧
    stepErrorById (scanCurrentPage env st0).steps "summarization" =
      some "Cannot summarize content - scraping failed" ∧
    stepStatusById (scanCurrentPage env st0).steps "generate-report" = some .completed ∧
    (scanCurrentPage env st0).calls = [.scrapeCall] ∧
    ∃ a, (scanCurrentPage env st0).analysis = some a ∧
      a.aiScore = 0 ∧ a.fakeNewsScore = 0 ∧ a.overallRisk = .low := by
  obtain ⟨tu, tt, sc, de, fc, se, im, su⟩ := env
  simp only at h hs
  subst h
  subst hs
  simp [scanCurrentPage, stepScrapeContent, stepDetectAI, stepFactCheck,
    stepSentiment, stepImageAnalysis, stepSummarization, stepGenerateReport,
    updateStep, initAnalysisSteps, stepStatusById, stepErrorById, stepById,
    overallRiskOf]

/-- C4 witness: the scrape-failure behaviour on a concrete run. -/
theorem C4_scrapeFailurePropagates_witness :
    stepStatusById (scanCurrentPage envScrapeFail []).steps "detect-ai" = some .error ∧
    stepErrorById (scanCurrentPage envScrapeFail []).steps "detect-ai" =
      some "Cannot analyze AI content - scraping failed" ∧
    stepStatusById (scanCurrentPage envScrapeFail []).steps "fact-check" = some .error ∧
    stepErrorById (scanCurrentPage envScrapeFail []).steps "fact-check" =
      some "Cannot fact-check content - scraping failed" ∧
    stepStatusById (scanCurrentPage envScrapeFail []).steps "sentiment-analysis" = some .error ∧
    stepErrorById (scanCurrentPage envScrapeFail []).steps "sentiment-analysis" =
      some "Cannot analyze sentiment - scraping failed" ∧
    stepStatusById (scanCurrentPage envScrapeFail []).steps "image-analysis" = some .error ∧
    stepErrorById (scanCurrentPage envScrapeFail []).steps "image-analysis" =
      some "Cannot analyze images - scraping failed" ∧
    stepStatusById (scanCurrentPage envScrapeFail []).steps "summarization" = some .error ∧
    stepErrorById (scanCurrentPage envScrapeFail []).steps "summarization" =
      some "Cannot summarize content - scraping failed" ∧
    stepStatusById (scanCurrentPage envScrapeFail []).steps "generate-report" = some .completed ∧
    (scanCurrentPage envScrapeFail []).calls = [.scrapeCall] ∧
    ∃ a, (scanCurrentPage envScrapeFail []).analysis = some a ∧
      a.aiScore = 0 ∧ a.fakeNewsScore = 0 ∧ a.overallRisk = .low :=
  C4_scrapeFailurePropagates envScrapeFail [] "https://fail.example"
    "Failed to scrape page: HTTP error! status: 500" rfl rfl

/-- C5: with scrape succeeded, the image-analysis step always completes and
its results are exactly `analyzeImages` over the scraped urls; the empty
list yields no results, and an individual failing image yields the synthetic
zero-percent result without aborting the remaining images. -/
theorem C5_imageAnalysis :
    (∀ (env : Env) (st0 : List (String × PageAnalysis)) (url : String)
      (d : ScrapedData),
      env.tabUrl = some url → env.scrape = .ok d →
      stepStatusById (scanCurrentPage env st0).steps "image-analysis" =
        some .completed ∧
      ∃ a, (scanCurrentPage env st0).analysis = some a ∧
        a.imageDetectionResults = analyzeImages env.imageDetect d.images) ∧
    (∀ oracle : String → Except String ImagePayload, analyzeImages oracle [] = []) ∧
    (∀ (oracle : String → Except String ImagePayload) (p : ImagePayload)
      (u v e : String),
      oracle u = .ok p → oracle v = .error e →
      analyzeImages oracle [u, v] =
        [ { url := u, aiLikelihoodPercent := p.aiLikelihoodPercent
            rawModelReply := p.rawModelReply },
          { url := v, aiLikelihoodPercent := 0
            rawModelReply :=
              "Analysis failed: " ++ ("Failed to detect AI in image: " ++ e) } ]) := by
  refine ⟨?_, fun oracle => rfl, ?_⟩
  · intro env st0 url d h hd
    obtain ⟨a, ha, -, -, -, -, -, -, himg⟩ := scanRun_master env st0 url h
    obtain ⟨h1, h2⟩ := himg d hd
    exact ⟨h1, a, ha, h2⟩
  · intro oracle p u v e hu hv
    simp [analyzeImages, detectAIInImage, hu, hv]

/-- C5 witness: the image-step behaviour on the scenario run and the
two-image sequence where the second image fails. -/
theorem C5_imageAnalysis_witness :
    (stepStatusById (scanCurrentPage envRun []).steps "image-analysis" =
       some .completed ∧
     ∃ a, (scanCurrentPage envRun []).analysis = some a ∧
       a.imageDetectionResults = analyzeImages envRun.imageDetect scrapedRun.images) ∧
    analyzeImages oracleW ["a", "b"] =
      [ { url := "a", aiLikelihoodPercent := 20, rawModelReply := "clean" },
        { url := "b", aiLikelihoodPercent := 0
          rawModelReply :=
            "Analysis failed: " ++ ("Failed to detect AI in image: " ++ "boom") } ] :=
  ⟨C5_imageAnalysis.1 envRun [] "https://test.example" scrapedRun rfl rfl,
   C5_imageAnalysis.2.2 oracleW
     { aiLikelihoodPercent := 20, rawModelReply := "clean" } "a" "b" "boom" rfl rfl⟩

/-- C6 counterexample: the run whose get-url step fails terminates without
producing or persisting any PageAnalysis. -/
theorem C6_counterexample :
    (scanCurrentPage envNoTab []).analysis = none ∧
    (scanCurrentPage envNoTab []).storage = [] := by
  decide

/-- C6 (amended): no run lets a step failure go unrecorded — every step in
error state carries a message — and every run in which get-url succeeds
terminates in a PageAnalysis that is produced and persisted under the URL
key; the run in which get-url fails aborts without producing one. -/
theorem C6_errors_recorded (env : Env) (st0 : List (String × PageAnalysis)) :
    (∀ s ∈ (scanCurrentPage env st0).steps, s.status = .error → s.error ≠ none) ∧
    (∀ url, env.tabUrl = some url →
      ∃ a, (scanCurrentPage env st0).analysis = some a ∧
        storageGet ("analysis_" ++ url) (scanCurrentPage env st0).storage = some a) := by
  constructor
  · cases henv : env.tabUrl with
    | none => exact (scan_noTab env st0 henv).2.2
    | some url =>
        obtain ⟨a, -, -, -, hsteps, -⟩ := scanRun_master env st0 url henv
        exact fun s hs => (hsteps s hs).2
  · intro url henv
    obtain ⟨a, ha, hst, -⟩ := scanRun_master env st0 url henv
    refine ⟨a, ha, ?_⟩
    rw [hst]
    exact storageGet_storageSet_self _ a st0

/-- C6 witness: the persistence conclusion on the scenario run. -/
theorem C6_errors_recorded_witness :
    ∃ a, (scanCurrentPage envRun []).analysis = some a ∧
      storageGet ("analysis_" ++ "https://test.example")
        (scanCurrentPage envRun []).storage = some a :=
  (C6_errors_recorded envRun []).2 "https://test.example" rfl

/-- C7: the end-to-end scenario — scrape with one image, detection 85,
fact-check 3 claims with 2 false, sentiment/summarization/image success —
yields aiScore 85, fakeNewsScore 67, overall risk high, exactly the two
findings (ai-generated 85, fake-news 67), and one image result. -/
theorem C7_endToEnd :
    (scanCurrentPage envRun []).analysis.map (·.aiScore) = some 85 ∧
    (scanCurrentPage envRun []).analysis.map (·.fakeNewsScore) = some 67 ∧
    (scanCurrentPage envRun []).analysis.map (·.overallRisk) = some .high ∧
    (scanCurrentPage envRun []).analysis.map
      (fun a => a.results.map fun r => (r.type, r.confidence)) =
      some [(.aiGenerated, 85), (.fakeNews, 67)] ∧
    (scanCurrentPage envRun []).analysis.map (·.imageDetectionResults.length) =
      some 1 := by
  decide

/-- C8: the navigation-triggered invalidation keeps exactly the entries that
are not analysis keys of other URLs — an entry survives iff it was stored
and, if its key starts with "analysis_", the key is the current URL's key —
and the save/save/invalidate scenario leaves only the current URL's entry
besides non-analysis keys. -/
theorem C8_invalidateOthers :
    (∀ (α : Type) (st : List (String × α)) (url k : String) (v : α),
      (k, v) ∈ invalidateOthers url st ↔
        (k, v) ∈ st ∧
        (strStartsWith k "analysis_" = true → k = "analysis_" ++ url)) ∧
    invalidateOthers "https://y.com"
      (storageSet "analysis_https://y.com" 1
        (storageSet "analysis_https://x.com" 0 [("theme", 9)])) =
      [("theme", 9), ("analysis_https://y.com", 1)] := by
  constructor
  · intro α st url k v
    simp only [invalidateOthers, List.mem_filter]
    cases hsw : strStartsWith k "analysis_" with
    | false => simp [hsw]
    | true => simp [hsw, bne]
  · decide

/-- C8 witness: the membership characterization at a concrete store. -/
theorem C8_invalidateOthers_witness :
    ("analysis_https://y.com", (1 : Nat)) ∈
        invalidateOthers "https://y.com"
          [("analysis_https://x.com", 0), ("analysis_https://y.com", 1)] ↔
      ("analysis_https://y.com", 1) ∈
        [("analysis_https://x.com", (0 : Nat)), ("analysis_https://y.com", 1)] ∧
      (strStartsWith "analysis_https://y.com" "analysis_" = true →
        "analysis_https://y.com" = "analysis_" ++ "https://y.com") :=
  C8_invalidateOthers.1 Nat
    [("analysis_https://x.com", 0), ("analysis_https://y.com", 1)]
    "https://y.com" "analysis_https://y.com" 1

/-- C9: if the detection service reports an integer in [0,100], every
produced analysis has both scores in [0,100]; failed or skipped calls give
score 0 instead of an error state. -/
theorem C9_scoreBounds (env : Env) (st0 : List (String × PageAnalysis))
    (a : PageAnalysis)
    (hdet : ∀ dr, env.detect = .ok dr →
      0 ≤ dr.aiLikelihoodPercent ∧ dr.aiLikelihoodPercent ≤ 100)
    (ha : (scanCurrentPage env st0).analysis = some a) :
    (0 ≤ a.aiScore ∧ a.aiScore ≤ 100) ∧
    (0 ≤ a.fakeNewsScore ∧ a.fakeNewsScore ≤ 100) ∧
    (∀ e, env.scrape = .error e → a.aiScore = 0 ∧ a.fakeNewsScore = 0) ∧
    (∀ e, env.detect = .error e → a.aiScore = 0) ∧
    (∀ e, env.factCheck = .error e → a.fakeNewsScore = 0) := by
  cases henv : env.tabUrl with
  | none => rw [(scan_noTab env st0 henv).1] at ha; cases ha
  | some url =>
      obtain ⟨b, hb, -, -, -, hai, hfn, -, -⟩ := scanRun_master env st0 url henv
      rw [ha] at hb
      injection hb with hab
      subst hab
      refine ⟨?_, ?_, ?_, ?_, ?_⟩
      · rw [hai]
        cases hsc : env.scrape <;> cases hde : env.detect <;> dsimp only <;>
          first
          | exact ⟨le_refl 0, by norm_num⟩
          | exact hdet _ hde
      · rw [hfn]
        cases hsc : env.scrape <;> cases hfc : env.factCheck <;> dsimp only <;>
          first
          | exact ⟨le_refl 0, by norm_num⟩
          | exact ⟨Int.natCast_nonneg _,
              by exact_mod_cast calculateFakeNewsPercentage_le_100 _⟩
      · intro e hsc
        rw [hai, hfn, hsc]
        exact ⟨rfl, rfl⟩
      · intro e hde
        rw [hai, hde]
        cases hsc : env.scrape <;> rfl
      · intro e hfc
        rw [hfn, hfc]
        cases hsc : env.scrape <;> rfl

/-- C9 witness: the bounds evaluated on the scenario run's analysis. -/
theorem C9_scoreBounds_witness :
    (0 ≤ runA.aiScore ∧ runA.aiScore ≤ 100) ∧
    (0 ≤ runA.fakeNewsScore ∧ runA.fakeNewsScore ≤ 100) ∧
    (∀ e, envRun.scrape = .error e → runA.aiScore = 0 ∧ runA.fakeNewsScore = 0) ∧
    (∀ e, envRun.detect = .error e → runA.aiScore = 0) ∧
    (∀ e, envRun.factCheck = .error e → runA.fakeNewsScore = 0) :=
  C9_scoreBounds envRun [] runA
    (fun dr h => by injection h with h2; subst h2; decide) rfl

/-- C10: `analyzeImages` returns one result per input url, in order, with the
i-th result carrying the i-th url, regardless of which calls fail; the empty
list maps to the empty list. -/
theorem C10_analyzeImages_order (oracle : String → Except String ImagePayload)
    (urls : List String) :
    (analyzeImages oracle urls).map ImageDetectionResult.url = urls ∧
    (analyzeImages oracle urls).length = urls.length := by
  induction urls with
  | nil => simp [analyzeImages]
  | cons u rest ih =>
      cases h : oracle u <;>
        simp [analyzeImages, detectAIInImage, h, ih.1, ih.2]

end Factora
